import Mathlib

/-!
Verification development for an automatic unit-test scaffolding pipeline
(change detection, coverage-gap analysis, test stub generation,
validation-with-retry, orchestration).  The Python source is shallowly
embedded: pure string/AST manipulation becomes Lean functions, file-system
and subprocess effects become explicit state passing and outcome
parameters.  String helpers are implemented over `String.data` character
lists so that every definition reduces inside the kernel.
-/

/-! ### String helpers (kernel-reducible models of the Python string ops) -/

/-- Model of `str.startswith(pre)`. -/
def str_starts_with (s pre : String) : Bool :=
  pre.data.isPrefixOf s.data

/-- Model of `needle in hay` (Python substring containment). -/
def contains_sub (hay needle : String) : Bool :=
  hay.data.tails.any (fun t => needle.data.isPrefixOf t)

/-- Model of `str.strip()` for whitespace. -/
def py_strip (s : String) : String :=
  String.mk (((s.data.dropWhile Char.isWhitespace).reverse.dropWhile Char.isWhitespace).reverse)

/-- Model of `str.rstrip()` for whitespace. -/
def py_rstrip (s : String) : String :=
  String.mk (s.data.reverse.dropWhile Char.isWhitespace).reverse

/-- Split a character list at a separator character (auxiliary). -/
def split_on_char_aux (sep : Char) : List Char → List Char → List String
  | [], acc => [String.mk acc.reverse]
  | c :: rest, acc =>
    if c = sep then String.mk acc.reverse :: split_on_char_aux sep rest []
    else split_on_char_aux sep rest (c :: acc)

/-- Split a string at every occurrence of a separator character. -/
def split_on_char (sep : Char) (s : String) : List String :=
  split_on_char_aux sep s.data []

/-- Model of `str.splitlines()`: split at newlines, with no trailing empty
entry for a trailing newline, and `[]` for the empty string. -/
def py_splitlines (s : String) : List String :=
  let p := split_on_char (Char.ofNat 10) s
  if p.getLast? = some "" then p.dropLast else p

/-- Model of `module_path.replace(".", "_")` (single-character pattern). -/
def dot_to_underscore (s : String) : String :=
  String.mk (s.data.map (fun c => if c = '.' then '_' else c))

/-! ### Paths and the in-memory file system -/

/-- A file-system path, as its list of components from the root. -/
abbrev FsPath := List String

/-- Model of `str(Path)`: components joined by slashes. -/
def str_of_path (p : FsPath) : String :=
  String.intercalate "/" p

/-- Model of `Path(s)`: split a string into slash-separated components. -/
def path_from_string (s : String) : FsPath :=
  split_on_char '/' s

/-- Model of `Path.parent`: the path with its last component removed. -/
def parent_dir (p : FsPath) : FsPath := p.dropLast

/-- Model of `Path.stem` for the `.py` files this pipeline handles:
the final component without its `.py` suffix. -/
def stem_of (s : String) : String :=
  if [ '.', 'p', 'y' ].isSuffixOf s.data then String.mk (s.data.take (s.data.length - 3))
  else s

/-- Does the final component carry a real `.py` suffix
(model of `Path.suffix == ".py"`, where the bare name `.py` has no suffix)? -/
def has_py_suffix (s : String) : Bool :=
  [ '.', 'p', 'y' ].isSuffixOf s.data && decide (3 < s.data.length)

/-- The tracked slice of the working tree: test-file contents plus the set
of directories created so far.  Writes shadow earlier entries. -/
structure FS where
  files : List (FsPath × String)
  dirs : List FsPath
deriving DecidableEq

/-- Read a file (`Path.read_text` on files this run may touch). -/
def fs_read (fs : FS) (p : FsPath) : Option String :=
  (fs.files.find? (fun e => e.1 = p)).map Prod.snd

/-- Write a file (`Path.write_text`): the new entry shadows older ones. -/
def fs_write (fs : FS) (p : FsPath) (content : String) : FS :=
  { fs with files := (p, content) :: fs.files }

/-! ### Symbols (`ChangedSymbol` in `agents/change_detector.py`) -/

/-- `ChangedSymbol`: a named function/class declaration with its inclusive
source-line range. -/
structure PySymbol where
  name : String
  symbol_type : String
  file_path : FsPath
  lineno : Nat
  end_lineno : Nat
deriving DecidableEq

/-! ### Coverage analyzer (`agents/coverage_analyzer.py`) -/

/-- `CoverageGap`: a changed file together with the names of its
under-covered symbols. -/
structure CoverageGapE where
  file : FsPath
  missing_tests : List String
deriving DecidableEq

/-- `CoverageAnalysisResult`. -/
structure CoverageAnalysisResultE where
  gaps : List CoverageGapE
  coverage_json_path : Option FsPath
deriving DecidableEq

/-- `CoverageAnalyzerAgent._symbol_has_missing_lines`: does any line of the
inclusive range `[lineno, end_lineno]` lie in the missing-line set? -/
def symbol_has_missing_lines (s : PySymbol) (missing_lines : List Nat) : Bool :=
  (List.range' s.lineno (s.end_lineno + 1 - s.lineno)).any (fun l => missing_lines.contains l)

/-- The body of the per-changed-file loop of
`CoverageAnalyzerAgent._find_gaps`: look the file up in the report's
`files` mapping (an entry with an empty `missing_lines` set is skipped just
like an absent one, matching the two `continue` guards), re-index its
symbols via `load_symbols` (the fresh `ast.parse` walk, passed as a
function since it reads the working tree), and keep the file only when at
least one symbol overlaps a missing line. -/
def gap_for_file (repo_root : FsPath) (files_data : List (String × List Nat))
    (load_symbols : FsPath → List PySymbol) (changed_file : FsPath) : Option CoverageGapE :=
  let rel_path := str_of_path (changed_file.drop repo_root.length)
  match files_data.lookup rel_path with
  | none => none
  | some missing_lines =>
    if missing_lines.isEmpty then none
    else
      let symbols := load_symbols changed_file
      let missing_tests :=
        (symbols.filter (fun s => symbol_has_missing_lines s missing_lines)).map PySymbol.name
      if missing_tests.isEmpty then none else some ⟨changed_file, missing_tests⟩

/-- `CoverageAnalyzerAgent._find_gaps`: the loop over changed files,
appending one gap per qualifying file. -/
def find_gaps (repo_root : FsPath) (files_data : List (String × List Nat))
    (load_symbols : FsPath → List PySymbol) (changed_files : List FsPath) : List CoverageGapE :=
  changed_files.filterMap (gap_for_file repo_root files_data load_symbols)

/-- The external effects consumed by `CoverageAnalyzerAgent.analyze`:
what `_run_coverage` returned, whether the report file exists, and the
parsed `files` mapping of the report (path string to `missing_lines`). -/
structure CoverageEnv where
  run_coverage_result : Option FsPath
  file_exists : FsPath → Bool
  report_files : FsPath → List (String × List Nat)

/-- `CoverageAnalyzerAgent.analyze`: when `_run_coverage` yielded no path
or the report file does not exist, return an empty gap list and a null
report path; otherwise parse the report and find the gaps. -/
def analyze (repo_root : FsPath) (env : CoverageEnv) (changed_files : List FsPath)
    (load_symbols : FsPath → List PySymbol) : CoverageAnalysisResultE :=
  match env.run_coverage_result with
  | none => ⟨[], none⟩
  | some p =>
    if env.file_exists p then
      ⟨find_gaps repo_root (env.report_files p) load_symbols changed_files, some p⟩
    else ⟨[], none⟩

/-! ### Python AST model and the test generator (`agents/test_generator.py`) -/

/-- A parameter's type annotation (`ast.arg.annotation`): absent is
`Option.none` at the use site; present ones are a plain name, a subscript
whose value is a plain name, or anything else. -/
inductive Annot where
  | nameA (id : String)
  | subscriptA (value_id : String)
  | otherA
deriving DecidableEq

/-- A statement of a parsed module body, keeping exactly what the pipeline
inspects: declaration kind, name, positional-argument annotations, and the
nested body (for functions and classes). -/
inductive PyNode where
  | funcDef (name : String) (args : List (Option Annot)) (isAsync : Bool) (body : List PyNode)
  | classDef (name : String) (body : List PyNode)
  | otherStmt

/-- Is this statement a `FunctionDef`/`AsyncFunctionDef`/`ClassDef`? -/
def is_def_node : PyNode → Bool
  | .funcDef _ _ _ _ => true
  | .classDef _ _ => true
  | .otherStmt => false

/-- The declaration name of a function/class statement. -/
def node_name : PyNode → Option String
  | .funcDef n _ _ _ => some n
  | .classDef n _ => some n
  | .otherStmt => none

/-- `TestGenerationAgent._load_symbols`: only the top-level declarations of
the parsed module body. -/
def generator_load_symbols (body : List PyNode) : List PyNode :=
  body.filter is_def_node

/-- The names of the top-level declarations of a module body. -/
def top_level_names (body : List PyNode) : List String :=
  (generator_load_symbols body).filterMap node_name

/-- All declaration names at every nesting depth (the view `ast.walk`
gives the coverage analyzer's `_load_symbols`). -/
def walk_names : List PyNode → List String
  | [] => []
  | .funcDef n _ _ b :: rest => n :: (walk_names b ++ walk_names rest)
  | .classDef n b :: rest => n :: (walk_names b ++ walk_names rest)
  | .otherStmt :: rest => walk_names rest

/-- `GeneratedTest`. -/
structure GeneratedTestE where
  name : String
  file_path : FsPath
deriving DecidableEq

/-- `TestGenerationAgent._test_file_for_source`:
`repo_root / "tests" / ("test_" ++ stem ++ ".py")`. -/
def test_file_for_source (repo_root : FsPath) (source_file : FsPath) : FsPath :=
  repo_root ++ ["tests", "test_" ++ stem_of (source_file.getLastD "") ++ ".py"]

/-- `TestGenerationAgent._module_path_for_file`: the dotted module path of
the source file relative to the repository root. -/
def module_path_for_file (repo_root : FsPath) (source_file : FsPath) : String :=
  let rel_path := source_file.drop repo_root.length
  String.intercalate "." (rel_path.dropLast ++ [stem_of (rel_path.getLastD "")])

/-- `TestGenerationAgent._module_alias`. -/
def module_alias (module_path : String) : String :=
  dot_to_underscore module_path ++ "_module"

/-- The import statement the generator maintains. -/
def import_line_for (module_path malias : String) : String :=
  "import " ++ module_path ++ " as " ++ malias

/-- Does a line open with an import keyword (the generator's insertion
heuristic)? -/
def is_import_line (line : String) : Bool :=
  str_starts_with line "import " || str_starts_with line "from "

/-- The insertion index computed by `_ensure_module_import`: one past the
last import-like line, or `0` when there is none. -/
def import_insert_index (lines : List String) : Nat :=
  lines.enum.foldl (fun acc p => if is_import_line p.2 then p.1 + 1 else acc) 0

/-- `TestGenerationAgent._ensure_module_import`: leave the lines alone when
the import statement is already present, otherwise splice it in at the
insertion index. -/
def ensure_module_import (lines : List String) (module_path malias : String) : List String :=
  let il := import_line_for module_path malias
  if il ∈ lines then lines
  else lines.take (import_insert_index lines) ++ [il] ++ lines.drop (import_insert_index lines)

/-- `TestGenerationAgent._default_from_name`: canonical placeholder values
for recognized primitive annotation names. -/
def default_from_name (n : String) : String :=
  if n = "int" then "0"
  else if n = "float" then "0.0"
  else if n = "str" then "\"example\""
  else if n = "bool" then "False"
  else if n = "list" then "[]"
  else if n = "dict" then "\x7b\x7d"
  else "None"

/-- `TestGenerationAgent._default_value`. -/
def default_value : Option Annot → String
  | none => "None"
  | some (.nameA id) => default_from_name id
  | some (.subscriptA v) => default_from_name v
  | some .otherA => "None"

/-- `TestGenerationAgent._build_function_test`. -/
def build_function_test (name : String) (args : List (Option Annot)) (isAsync : Bool)
    (malias test_name : String) : String :=
  let call_args := String.intercalate ", " (args.map default_value)
  let call_line :=
    if isAsync then "    result = await " ++ malias ++ "." ++ name ++ "(" ++ call_args ++ ")"
    else "    result = " ++ malias ++ "." ++ name ++ "(" ++ call_args ++ ")"
  String.intercalate "\n"
    [ "def " ++ test_name ++ "():",
      "    \"\"\"Validate " ++ name ++ " executes with basic inputs.\"\"\"",
      "    # Arrange",
      "    # Act",
      call_line,
      "    # Assert",
      "    assert result is not None" ]

/-- `TestGenerationAgent._build_class_test`. -/
def build_class_test (name : String) (malias test_name : String) : String :=
  String.intercalate "\n"
    [ "def " ++ test_name ++ "():",
      "    \"\"\"Ensure " ++ name ++ " can be instantiated.\"\"\"",
      "    # Arrange",
      "    # Act",
      "    instance = " ++ malias ++ "." ++ name ++ "()",
      "    # Assert",
      "    assert instance is not None" ]

/-- `TestGenerationAgent._build_test_block`. -/
def build_test_block (malias test_name : String) : PyNode → Option String
  | .funcDef n args isAsync _ => some (build_function_test n args isAsync malias test_name)
  | .classDef n _ => some (build_class_test n malias test_name)
  | .otherStmt => none

/-- One iteration of the generator's inner loop: skip a symbol whose name
is not in the gap's missing list, skip it when `test_<name>` is already in
the (initial) discovered-name set, otherwise build its stub block. -/
def stub_for (malias : String) (missing existing : List String) (sym : PyNode) :
    Option (String × String) :=
  match node_name sym with
  | none => none
  | some n =>
    if missing.contains n then
      let tn := "test_" ++ n
      if existing.contains tn then none
      else
        match build_test_block malias tn sym with
        | some b => some (tn, b)
        | none => none
    else none

/-- The generator's inner loop over one gap: the (test name, stub block)
pairs produced in symbol order. -/
def stubs_for_gap (body : List PyNode) (missing existing : List String) (malias : String) :
    List (String × String) :=
  (generator_load_symbols body).filterMap (stub_for malias missing existing)

/-- One iteration of `TestGenerationAgent.generate_tests`'s outer loop:
resolve the test file, create its directory, load or seed its lines,
ensure the module import, build the stub blocks, and write the batch back
only when at least one block was built.  `existing` is the flattened
discovery snapshot — the code never adds the names it generates to it. -/
def process_gap (repo_root : FsPath) (source_body : FsPath → List PyNode)
    (existing : List String) (gap : CoverageGapE) (fs : FS) :
    List GeneratedTestE × FS :=
  let module_path := module_path_for_file repo_root gap.file
  let malias := module_alias module_path
  let test_file := test_file_for_source repo_root gap.file
  let fs1 : FS := { fs with dirs := parent_dir test_file :: fs.dirs }
  let content_lines :=
    match fs_read fs1 test_file with
    | some content => py_splitlines content
    | none => ["\"\"\"Auto-generated tests.\"\"\"", "", "import pytest", ""]
  let content_lines2 := ensure_module_import content_lines module_path malias
  let new_pairs := stubs_for_gap (source_body gap.file) gap.missing_tests existing malias
  if new_pairs.isEmpty then ([], fs1)
  else
    (new_pairs.map (fun p => ⟨p.1, test_file⟩),
     fs_write fs1 test_file
       (py_rstrip (String.intercalate "\n" (content_lines2 ++ [""] ++ new_pairs.map Prod.snd))
        ++ "\n"))

/-- `TestGenerationAgent.generate_tests`: fold the per-gap step over all
gaps, accumulating the generated tests and threading the file system.
The discovered-name set stays fixed for the whole run. -/
def generate_tests (repo_root : FsPath) (source_body : FsPath → List PyNode)
    (existing_test_names : List String) (gaps : List CoverageGapE) (fs : FS) :
    List GeneratedTestE × FS :=
  gaps.foldl
    (fun acc gap =>
      let r := process_gap repo_root source_body existing_test_names gap acc.2
      (acc.1 ++ r.1, r.2))
    ([], fs)

/-! ### Validator (`agents/validator.py`) -/

/-- `ValidationResult`. -/
structure ValidationResultE where
  success : Bool
  output : String
  skipped : Bool
deriving DecidableEq

/-- The outcome of one `pytest` subprocess invocation. -/
inductive PytestOutcome where
  | passed (out : String)
  | failed (out : String)
  | notFound
deriving DecidableEq

/-- `ValidationAgent._run_pytest`: success on zero exit status, failure on
`CalledProcessError`, and a skipped success when the binary is missing. -/
def run_pytest : PytestOutcome → ValidationResultE
  | .passed o => ⟨true, o, false⟩
  | .failed o => ⟨false, o, false⟩
  | .notFound => ⟨true, "Pytest not available.", true⟩

/-- The expected-failure annotation inserted by the corrector. -/
def xfail_line : String :=
  "@pytest.mark.xfail(reason=\"Auto-corrected generated test\")"

/-- One iteration of `ValidationAgent._auto_correct_generated_tests`: if
the test file still exists, insert the expected-failure annotation above
every line declaring the generated test, prepend the pytest import when
the file nowhere mentions pytest, and write the file back. -/
def auto_correct_one (gt : GeneratedTestE) (fs : FS) : FS :=
  match fs_read fs gt.file_path with
  | none => fs
  | some content =>
    let lines := py_splitlines content
    let updated := lines.foldr
      (fun line acc =>
        (if str_starts_with line ("def " ++ gt.name ++ "(") then [xfail_line, line] else [line])
          ++ acc)
      []
    let updated2 :=
      if contains_sub (String.intercalate "\n" lines) "pytest" then updated
      else "import pytest" :: updated
    fs_write fs gt.file_path (String.intercalate "\n" updated2 ++ "\n")

/-- `ValidationAgent._auto_correct_generated_tests`: the loop over all
generated tests. -/
def auto_correct_generated_tests (generated : List GeneratedTestE) (fs : FS) : FS :=
  generated.foldl (fun f gt => auto_correct_one gt f) fs

/-- The observable trace of one `ValidationAgent.validate` call: the
returned result, the file system after any correction, and how many
pytest runs and correction passes were performed. -/
structure VOut where
  result : ValidationResultE
  fs : FS
  runs_performed : Nat
  corrections : Nat
deriving DecidableEq

/-- `ValidationAgent.validate`: run the suite once; return immediately on
success or skip; otherwise auto-correct the generated tests and return the
outcome of exactly one further run.  `outcomes n` is what the `n`-th
pytest invocation of this call would yield. -/
def validate (outcomes : Nat → PytestOutcome) (generated : List GeneratedTestE) (fs : FS) :
    VOut :=
  let first := run_pytest (outcomes 0)
  if first.success || first.skipped then ⟨first, fs, 1, 0⟩
  else ⟨run_pytest (outcomes 1), auto_correct_generated_tests generated fs, 2, 1⟩

/-! ### Orchestrator (`ai_test_runner.py`) -/

/-- The observable trace of one `AITestRunner.run` call. -/
structure PipelineResult where
  exit_code : Nat
  fs : FS
  validator_runs : Nat
  generated_count : Nat
deriving DecidableEq

/-- `AITestRunner.run` from the point where change detection and test
discovery have produced their results (both consumed as inputs): analyze
coverage, stop with exit code 0 in dry-run mode, otherwise generate tests,
validate, and exit 1 exactly when validation reports failure. -/
def runner_run (repo_root : FsPath) (dry_run : Bool) (env : CoverageEnv)
    (changed_files : List FsPath) (load_symbols : FsPath → List PySymbol)
    (source_body : FsPath → List PyNode) (existing_test_names : List String)
    (outcomes : Nat → PytestOutcome) (fs : FS) : PipelineResult :=
  let coverage := analyze repo_root env changed_files load_symbols
  if dry_run then ⟨0, fs, 0, 0⟩
  else
    let g := generate_tests repo_root source_body existing_test_names coverage.gaps fs
    let v := validate outcomes g.1 g.2
    ⟨if v.result.success then 0 else 1, v.fs, v.runs_performed, g.1.length⟩

/-! ### Change detector (`agents/change_detector.py`) -/

/-- The outcome of one `git` subprocess invocation: captured stdout,
a non-zero exit (`CalledProcessError`), or a missing binary
(`FileNotFoundError`). -/
inductive GitOutcome where
  | output (out : String)
  | fails
  | notFound
deriving DecidableEq

/-- Is the path of the form `src/<something>` (model of
`(repo_root / "src") in (repo_root / file).parents`)? -/
def under_src : FsPath → Bool
  | "src" :: _ :: _ => true
  | _ => false

/-- The list-comprehension pipeline of `_detect_changed_files`: parse the
diff output into stripped non-empty lines, keep `.py` files under `src/`,
anchor them at the repository root, and keep those that exist. -/
def filter_changed (repo_root : FsPath) (file_exists : FsPath → Bool) (out : String) :
    List FsPath :=
  let files := (py_splitlines out).filterMap
    (fun line =>
      let t := py_strip line
      if t.data.isEmpty then none else some (path_from_string t))
  let src_files := (files.filter
    (fun f => has_py_suffix (f.getLastD "") && under_src f)).map (fun f => repo_root ++ f)
  src_files.filter file_exists

/-- `ChangeDetectionAgent._detect_changed_files`: the first diff invocation
against the previous revision; on `CalledProcessError` fall back to a diff
against the current revision (whose own failures are uncaught and
propagate, modeled as `Except.error`); on `FileNotFoundError` return the
empty list. -/
def detect_changed_files (repo_root : FsPath) (file_exists : FsPath → Bool)
    (o1 o2 : GitOutcome) : Except Unit (List FsPath) :=
  match o1 with
  | .output out => .ok (filter_changed repo_root file_exists out)
  | .notFound => .ok []
  | .fails =>
    match o2 with
    | .output out => .ok (filter_changed repo_root file_exists out)
    | .fails => .error ()
    | .notFound => .error ()

/-! ### Theorems -/

set_option maxRecDepth 8000

/-- C4: for every input, `validate` invokes the test-suite run at most
twice; if the first run succeeds or is skipped it returns that outcome
immediately with no correction, otherwise it performs the correction step
once, runs the suite exactly one more time, and returns that second
outcome regardless of whether it passed or failed — never a third run. -/
theorem validate_bounded_retry (outcomes : Nat → PytestOutcome)
    (generated : List GeneratedTestE) (fs : FS) :
    (validate outcomes generated fs).runs_performed ≤ 2 ∧
    (if ((run_pytest (outcomes 0)).success || (run_pytest (outcomes 0)).skipped) = true
     then validate outcomes generated fs = ⟨run_pytest (outcomes 0), fs, 1, 0⟩
     else validate outcomes generated fs =
       ⟨run_pytest (outcomes 1), auto_correct_generated_tests generated fs, 2, 1⟩) := by
  by_cases h : ((run_pytest (outcomes 0)).success || (run_pytest (outcomes 0)).skipped) = true
  · simp [validate, h]
  · simp [validate, h]

/-- C5: the orchestrator's run returns exit status 1 exactly when the
final validation outcome reports failure; validation success, skipped
validation (missing test tool), and dry-run mode (which stops after
coverage analysis, performing neither generation nor validation) all
return 0. -/
theorem run_exit_code (repo_root : FsPath) (dry_run : Bool) (env : CoverageEnv)
    (changed_files : List FsPath) (load_symbols : FsPath → List PySymbol)
    (source_body : FsPath → List PyNode) (existing_test_names : List String)
    (outcomes : Nat → PytestOutcome) (fs : FS) :
    ((runner_run repo_root dry_run env changed_files load_symbols source_body
        existing_test_names outcomes fs).exit_code = 1 ↔
      (dry_run = false ∧
        (validate outcomes
          (generate_tests repo_root source_body existing_test_names
            (analyze repo_root env changed_files load_symbols).gaps fs).1
          (generate_tests repo_root source_body existing_test_names
            (analyze repo_root env changed_files load_symbols).gaps fs).2).result.success
          = false)) ∧
    (dry_run = true →
      runner_run repo_root dry_run env changed_files load_symbols source_body
        existing_test_names outcomes fs = ⟨0, fs, 0, 0⟩) ∧
    (dry_run = false → outcomes 0 = PytestOutcome.notFound →
      (runner_run repo_root dry_run env changed_files load_symbols source_body
        existing_test_names outcomes fs).exit_code = 0) := by
  refine ⟨?_, ?_, ?_⟩
  · cases dry_run
    · simp only [runner_run, Bool.false_eq_true, if_false]
      cases hv : (validate outcomes
          (generate_tests repo_root source_body existing_test_names
            (analyze repo_root env changed_files load_symbols).gaps fs).1
          (generate_tests repo_root source_body existing_test_names
            (analyze repo_root env changed_files load_symbols).gaps fs).2).result.success
      · simp [hv]
      · simp [hv]
    · simp [runner_run]
  · intro hd; subst hd; simp [runner_run]
  · intro hd h0; subst hd
    simp [runner_run, validate, run_pytest, h0]

/-- C5 witness: a concrete dry run exits 0, leaves the file system
untouched and performs no validation run. -/
theorem run_exit_code_witness :
    runner_run ["r"] true ⟨none, fun _ => false, fun _ => []⟩ [] (fun _ => [])
      (fun _ => []) [] (fun _ => PytestOutcome.notFound) ⟨[], []⟩ = ⟨0, ⟨[], []⟩, 0, 0⟩ :=
  (run_exit_code ["r"] true ⟨none, fun _ => false, fun _ => []⟩ [] (fun _ => [])
    (fun _ => []) [] (fun _ => PytestOutcome.notFound) ⟨[], []⟩).2.1 rfl

/-- C6: when the coverage tool is missing (`_run_coverage` returned no
path) or the run failed to produce a report (the path does not exist),
`analyze` returns an empty gap list and a null report path; being a total
function of these outcomes, it raises nothing in these cases. -/
theorem analyze_unavailable_returns_empty (repo_root : FsPath) (env : CoverageEnv)
    (changed_files : List FsPath) (load_symbols : FsPath → List PySymbol)
    (h : ∀ p, env.run_coverage_result = some p → env.file_exists p = false) :
    analyze repo_root env changed_files load_symbols = ⟨[], none⟩ := by
  unfold analyze
  cases hc : env.run_coverage_result with
  | none => rfl
  | some p => simp [h p hc]

/-- C6 witness: a concrete environment whose coverage run produced a path
that does not exist on disk yields the empty analysis result. -/
theorem analyze_unavailable_returns_empty_witness :
    analyze ["r"] ⟨some ["r", "coverage.json"], fun _ => false, fun _ => []⟩ [] (fun _ => [])
      = ⟨[], none⟩ :=
  analyze_unavailable_returns_empty ["r"]
    ⟨some ["r", "coverage.json"], fun _ => false, fun _ => []⟩ [] (fun _ => [])
    (fun _ _ => rfl)

/-- C7: whenever version control is unavailable — every diff invocation,
including the fallback one used when no previous revision exists, fails to
find the binary — `detect_changed_files` returns the empty sequence
without raising. -/
theorem detect_changed_files_git_unavailable (repo_root : FsPath)
    (file_exists : FsPath → Bool) (o1 o2 : GitOutcome)
    (h1 : o1 = GitOutcome.notFound) (h2 : o2 = GitOutcome.notFound) :
    detect_changed_files repo_root file_exists o1 o2 = Except.ok [] := by
  subst h1; rfl

/-- C7 witness: with both git invocations unable to find the binary, the
concrete call returns the empty list. -/
theorem detect_changed_files_git_unavailable_witness :
    detect_changed_files ["r"] (fun _ => true) GitOutcome.notFound GitOutcome.notFound =
      Except.ok [] :=
  detect_changed_files_git_unavailable ["r"] (fun _ => true) _ _ rfl rfl

/-- When the import statement is already among the lines,
`ensure_module_import` is the identity. -/
theorem ensure_module_import_of_mem (ls : List String) (mp ma : String)
    (h : import_line_for mp ma ∈ ls) : ensure_module_import ls mp ma = ls := by
  simp [ensure_module_import, h]

/-- The import statement is always present after `ensure_module_import`. -/
theorem mem_ensure_module_import (ls : List String) (mp ma : String) :
    import_line_for mp ma ∈ ensure_module_import ls mp ma := by
  by_cases h : import_line_for mp ma ∈ ls
  · simpa [ensure_module_import_of_mem ls mp ma h] using h
  · simp [ensure_module_import, h]

/-- C3: inserting the module import is idempotent — applying
`_ensure_module_import` twice yields the same line sequence as applying it
once — and, for any input line list that does not already contain it more
than once, the resulting lines contain the import statement binding the
source module under its derived alias exactly once. -/
theorem ensure_module_import_idempotent (lines : List String) (mp ma : String)
    (h : lines.count (import_line_for mp ma) ≤ 1) :
    ensure_module_import (ensure_module_import lines mp ma) mp ma =
      ensure_module_import lines mp ma ∧
    (ensure_module_import lines mp ma).count (import_line_for mp ma) = 1 := by
  constructor
  · exact ensure_module_import_of_mem _ _ _ (mem_ensure_module_import lines mp ma)
  · by_cases hm : import_line_for mp ma ∈ lines
    · rw [ensure_module_import_of_mem _ _ _ hm]
      have h1 : 0 < lines.count (import_line_for mp ma) := List.count_pos_iff.mpr hm
      omega
    · have h0 : lines.count (import_line_for mp ma) = 0 := List.count_eq_zero.mpr hm
      have hsplit :
          (lines.take (import_insert_index lines)).count (import_line_for mp ma) +
            (lines.drop (import_insert_index lines)).count (import_line_for mp ma) =
            lines.count (import_line_for mp ma) := by
        rw [← List.count_append, List.take_append_drop]
      simp only [ensure_module_import, hm, if_false, List.count_append,
        List.count_singleton_self]
      omega

/-- C3 witness: on a concrete fresh header the operation stabilizes after
one application and yields exactly one import line. -/
theorem ensure_module_import_idempotent_witness :
    (["\"\"\"Auto-generated tests.\"\"\"", "", "import pytest", ""].count
        (import_line_for "src.a" "src_a_module") ≤ 1) ∧
    (ensure_module_import
        (ensure_module_import ["\"\"\"Auto-generated tests.\"\"\"", "", "import pytest", ""]
          "src.a" "src_a_module") "src.a" "src_a_module" =
      ensure_module_import ["\"\"\"Auto-generated tests.\"\"\"", "", "import pytest", ""]
        "src.a" "src_a_module" ∧
      (ensure_module_import ["\"\"\"Auto-generated tests.\"\"\"", "", "import pytest", ""]
          "src.a" "src_a_module").count (import_line_for "src.a" "src_a_module") = 1) :=
  ⟨by decide,
   ensure_module_import_idempotent ["\"\"\"Auto-generated tests.\"\"\"", "", "import pytest", ""]
     "src.a" "src_a_module" (by decide)⟩

/-- The coverage analyzer's fresh-parse symbol view at the C1
counterexample: an outer function `f` spanning lines 1-4 with a nested
function also named `f` spanning lines 2-3, exactly what `ast.walk`
yields for a redefinition-free nested module. -/
def c1_load_symbols : FsPath → List PySymbol :=
  fun _ =>
    [⟨"f", "function", ["src", "m.py"], 1, 4⟩,
     ⟨"f", "function", ["src", "m.py"], 2, 3⟩]

/-- C1 counterexample: with missing line 4 only, the gap for the file
lists the name `f`, yet the inner symbol named `f` (range 2-3) has no
line in the missing set — so "S's name is listed iff some line of
[S.start_line, S.end_line] is missing" is false for the inner symbol. -/
theorem find_gaps_name_collision_cex :
    find_gaps [] [("src/m.py", [4])] c1_load_symbols [["src", "m.py"]] =
      [⟨["src", "m.py"], ["f"]⟩] ∧
    (⟨"f", "function", ["src", "m.py"], 2, 3⟩ : PySymbol) ∈ c1_load_symbols ["src", "m.py"] ∧
    symbol_has_missing_lines ⟨"f", "function", ["src", "m.py"], 2, 3⟩ [4] = false :=
  ⟨by decide, by decide, by decide⟩

/-- C1 (amended): for a changed file whose report entry has a non-empty
missing-line set, a name is listed in the file's gap iff some freshly
parsed symbol bearing that name overlaps the missing set (for a symbol
with a unique name this is the claim's per-symbol iff), and the file
contributes a gap iff at least one symbol overlaps. -/
theorem find_gaps_symbol_gap_amended (repo_root : FsPath)
    (files_data : List (String × List Nat)) (load_symbols : FsPath → List PySymbol)
    (f : FsPath) (m : List Nat)
    (h1 : files_data.lookup (str_of_path (f.drop repo_root.length)) = some m)
    (h2 : m.isEmpty = false) :
    (∀ n : String,
      (∃ g ∈ find_gaps repo_root files_data load_symbols [f], n ∈ g.missing_tests) ↔
      (∃ s ∈ load_symbols f, s.name = n ∧ symbol_has_missing_lines s m = true)) ∧
    (find_gaps repo_root files_data load_symbols [f] ≠ [] ↔
      ∃ s ∈ load_symbols f, symbol_has_missing_lines s m = true) := by
  set ms := ((load_symbols f).filter (fun s => symbol_has_missing_lines s m)).map
    PySymbol.name with hms
  have key : ∀ n : String,
      n ∈ ms ↔ ∃ s ∈ load_symbols f, s.name = n ∧ symbol_has_missing_lines s m = true := by
    intro n
    rw [hms]
    simp only [List.mem_map, List.mem_filter]
    constructor
    · rintro ⟨s, ⟨hs, hf⟩, hn⟩
      exact ⟨s, hs, hn, hf⟩
    · rintro ⟨s, hs, hn, hf⟩
      exact ⟨s, ⟨hs, hf⟩, hn⟩
  have hgap : gap_for_file repo_root files_data load_symbols f =
      if ms.isEmpty then none else some ⟨f, ms⟩ := by
    simp only [gap_for_file, h1, h2, Bool.false_eq_true, if_false, hms]
  have hfg : find_gaps repo_root files_data load_symbols [f] =
      if ms.isEmpty then [] else [⟨f, ms⟩] := by
    simp only [find_gaps, List.filterMap_cons, List.filterMap_nil, hgap]
    by_cases hc : ms.isEmpty <;> simp [hc]
  have hex : ms ≠ [] ↔ ∃ s ∈ load_symbols f, symbol_has_missing_lines s m = true := by
    rw [Ne, List.eq_nil_iff_forall_not_mem]
    push_neg
    constructor
    · rintro ⟨n, hn⟩
      obtain ⟨s, hs, _, hf⟩ := (key n).1 hn
      exact ⟨s, hs, hf⟩
    · rintro ⟨s, hs, hf⟩
      exact ⟨s.name, (key s.name).2 ⟨s, hs, rfl, hf⟩⟩
  by_cases hc : ms.isEmpty
  · have hnil : ms = [] := by simpa using hc
    refine ⟨fun n => ?_, ?_⟩
    · rw [hfg, if_pos hc, ← key n, hnil]
      simp
    · rw [hfg, if_pos hc, ← hex, hnil]
      simp
  · refine ⟨fun n => ?_, ?_⟩
    · rw [hfg, if_neg hc, ← key n]
      simp
    · rw [hfg, if_neg hc, ← hex]
      have : ms ≠ [] := by simpa using hc
      simp [this]

/-- The symbol view at the C1 witness instance: a single function
`addOne` on lines 1-2. -/
def c1w_load : FsPath → List PySymbol :=
  fun _ => [⟨"addOne", "function", ["src", "basic_example.py"], 1, 2⟩]

/-- C1 witness: the amended statement applied at a concrete report and
file. -/
theorem find_gaps_symbol_gap_amended_witness :
    (∀ n : String,
      (∃ g ∈ find_gaps [] [("src/basic_example.py", [2])] c1w_load
          [["src", "basic_example.py"]], n ∈ g.missing_tests) ↔
      (∃ s ∈ c1w_load ["src", "basic_example.py"], s.name = n ∧
          symbol_has_missing_lines s [2] = true)) ∧
    (find_gaps [] [("src/basic_example.py", [2])] c1w_load [["src", "basic_example.py"]] ≠ [] ↔
      ∃ s ∈ c1w_load ["src", "basic_example.py"], symbol_has_missing_lines s [2] = true) :=
  find_gaps_symbol_gap_amended [] [("src/basic_example.py", [2])] c1w_load
    ["src", "basic_example.py"] [2] (by decide) (by decide)

/-- The stub block the generator builds for `addOne(n: int)` under the
alias of `src/basic_example.py`. -/
def c8_expected_block : String :=
  "def test_addOne():\n    \"\"\"Validate addOne executes with basic inputs.\"\"\"\n    # Arrange\n    # Act\n    result = src_basic_example_module.addOne(0)\n    # Assert\n    assert result is not None"

/-- C8: for a gap whose missing symbols include `addOne(n: int)`, the
generator emits exactly the stub `test_addOne` whose act step calls
`addOne` with the single positional argument `0` (the canonical
placeholder for `int`) and whose assert step asserts the result is not
`None`; an unrecognized annotation name, an absent annotation, and a
non-name annotation all map to the `None` placeholder. -/
theorem stub_for_addOne (n : String)
    (h1 : n ≠ "int") (h2 : n ≠ "float") (h3 : n ≠ "str") (h4 : n ≠ "bool")
    (h5 : n ≠ "list") (h6 : n ≠ "dict") :
    stubs_for_gap [.funcDef "addOne" [some (.nameA "int")] false []] ["addOne"] []
      "src_basic_example_module" = [("test_addOne", c8_expected_block)] ∧
    default_from_name n = "None" ∧
    default_value none = "None" ∧
    default_value (some Annot.otherA) = "None" := by
  refine ⟨by decide, ?_, rfl, rfl⟩
  simp [default_from_name, h1, h2, h3, h4, h5, h6]

/-- C8 witness: the theorem applied at the unrecognized annotation name
`Widget`. -/
theorem stub_for_addOne_witness :
    stubs_for_gap [.funcDef "addOne" [some (.nameA "int")] false []] ["addOne"] []
      "src_basic_example_module" = [("test_addOne", c8_expected_block)] ∧
    default_from_name "Widget" = "None" ∧
    default_value none = "None" ∧
    default_value (some Annot.otherA) = "None" :=
  stub_for_addOne "Widget" (by decide) (by decide) (by decide) (by decide) (by decide)
    (by decide)

/-- Appending a common prefix to strings is injective. -/
theorem string_append_left_cancel {s a b : String} (h : s ++ a = s ++ b) : a = b := by
  have hd : s.data ++ a.data = s.data ++ b.data := by
    simpa [String.data_append] using congrArg String.data h
  have hab : a.data = b.data := List.append_cancel_left hd
  cases a
  cases b
  exact congrArg String.mk hab

/-- A produced stub pair always carries the test name derived from its
symbol's declared name. -/
theorem stub_for_name (malias : String) (missing existing : List String) (sym : PyNode)
    (pr : String × String) (h : stub_for malias missing existing sym = some pr) :
    ∃ n, node_name sym = some n ∧ pr.1 = "test_" ++ n := by
  cases sym with
  | otherStmt => simp [stub_for, node_name] at h
  | funcDef n args isAsync body =>
    simp only [stub_for, node_name, build_test_block] at h
    split at h
    · split at h
      · cases h
      · refine ⟨n, rfl, ?_⟩
        cases h
        rfl
    · cases h
  | classDef n body =>
    simp only [stub_for, node_name, build_test_block] at h
    split at h
    · split at h
      · cases h
      · refine ⟨n, rfl, ?_⟩
        cases h
        rfl
    · cases h

/-- Every stub pair a gap produces is named after a top-level declaration
of the source file. -/
theorem stubs_for_gap_names (body : List PyNode) (missing existing : List String)
    (malias : String) (pr : String × String)
    (h : pr ∈ stubs_for_gap body missing existing malias) :
    ∃ n ∈ top_level_names body, pr.1 = "test_" ++ n := by
  obtain ⟨sym, hsym, hs⟩ := List.mem_filterMap.mp h
  obtain ⟨n, hn, hpr⟩ := stub_for_name _ _ _ _ _ hs
  exact ⟨n, List.mem_filterMap.mpr ⟨sym, hsym, hn⟩, hpr⟩

/-- C9: the generator synthesizes stubs only for top-level declarations —
a missing-symbol name that occurs in the module (at any depth, as the
coverage analyzer's walk can flag) but is not the name of any top-level
declaration yields no GeneratedTest entry whose name is `test_<name>`. -/
theorem nested_symbols_generate_no_stub (repo_root : FsPath)
    (source_body : FsPath → List PyNode) (existing : List String) (gap : CoverageGapE)
    (fs : FS) (m : String)
    (hw : m ∈ walk_names (source_body gap.file))
    (ht : m ∉ top_level_names (source_body gap.file)) :
    ∀ g ∈ (process_gap repo_root source_body existing gap fs).1,
      g.name ≠ "test_" ++ m := by
  intro g hg hname
  have hpair : ∃ pr ∈ stubs_for_gap (source_body gap.file) gap.missing_tests existing
      (module_alias (module_path_for_file repo_root gap.file)), g.name = pr.1 := by
    simp only [process_gap] at hg
    split at hg
    · simp at hg
    · obtain ⟨pr, hpr, hgp⟩ := List.mem_map.mp hg
      exact ⟨pr, hpr, by rw [← hgp]⟩
  obtain ⟨pr, hpr, hgp⟩ := hpair
  obtain ⟨n, hn, hprn⟩ := stubs_for_gap_names _ _ _ _ _ hpr
  have : n = m := string_append_left_cancel (by rw [← hprn, ← hgp, hname])
  exact ht (this ▸ hn)

/-- The parsed module at the C9 witness instance: a top-level function
`outer` containing a nested function `inner`. -/
def c9_source : FsPath → List PyNode :=
  fun _ => [.funcDef "outer" [] false [.funcDef "inner" [] false []]]

/-- C9 witness: with both `outer` and its nested `inner` flagged missing,
the only generated test is `test_outer`; in particular it is not
`test_inner`. -/
theorem nested_symbols_generate_no_stub_witness :
    (GeneratedTestE.mk "test_outer" ["r", "tests", "test_m.py"]).name ≠ "test_" ++ "inner" :=
  nested_symbols_generate_no_stub ["r"] c9_source []
    ⟨["r", "src", "m.py"], ["outer", "inner"]⟩ ⟨[], []⟩ "inner"
    (by simp [c9_source, walk_names]) (by decide)
    ⟨"test_outer", ["r", "tests", "test_m.py"]⟩ (by decide)

/-- C10: when every missing symbol of a gap is skipped or yields no block
(no stub pairs), `generate_tests`'s per-gap step writes nothing — the file
map is left exactly as it was, so an existing test file is byte-for-byte
unchanged and a non-existent one is not created — and contributes no
generated test, while the test file's parent directory is created
regardless. -/
theorem generate_tests_no_write_when_no_blocks (repo_root : FsPath)
    (source_body : FsPath → List PyNode) (existing : List String) (gap : CoverageGapE)
    (fs : FS)
    (h : stubs_for_gap (source_body gap.file) gap.missing_tests existing
      (module_alias (module_path_for_file repo_root gap.file)) = []) :
    (process_gap repo_root source_body existing gap fs).1 = [] ∧
    (process_gap repo_root source_body existing gap fs).2.files = fs.files ∧
    parent_dir (test_file_for_source repo_root gap.file) ∈
      (process_gap repo_root source_body existing gap fs).2.dirs := by
  refine ⟨?_, ?_, ?_⟩ <;> simp [process_gap, h]

/-- C10 witness: a gap whose only missing symbol `f` is skipped because
`test_f` was already discovered leaves the pre-existing test file entry
untouched while still creating the tests directory. -/
theorem generate_tests_no_write_when_no_blocks_witness :
    (process_gap ["r"] (fun _ => [PyNode.funcDef "f" [] false []]) ["test_f"]
        ⟨["r", "src", "m.py"], ["f"]⟩
        ⟨[(["r", "tests", "test_m.py"], "import pytest\n")], []⟩).1 = [] ∧
    (process_gap ["r"] (fun _ => [PyNode.funcDef "f" [] false []]) ["test_f"]
        ⟨["r", "src", "m.py"], ["f"]⟩
        ⟨[(["r", "tests", "test_m.py"], "import pytest\n")], []⟩).2.files =
      (FS.mk [(["r", "tests", "test_m.py"], "import pytest\n")] []).files ∧
    parent_dir (test_file_for_source ["r"] ["r", "src", "m.py"]) ∈
      (process_gap ["r"] (fun _ => [PyNode.funcDef "f" [] false []]) ["test_f"]
        ⟨["r", "src", "m.py"], ["f"]⟩
        ⟨[(["r", "tests", "test_m.py"], "import pytest\n")], []⟩).2.dirs :=
  generate_tests_no_write_when_no_blocks ["r"] (fun _ => [PyNode.funcDef "f" [] false []])
    ["test_f"] ⟨["r", "src", "m.py"], ["f"]⟩
    ⟨[(["r", "tests", "test_m.py"], "import pytest\n")], []⟩ (by decide)

/-- The changed sources at the C2 bug exhibit: `src/a.py` and
`src/sub/a.py`, each declaring an uncovered function `f`.  Both map to
the same test file `tests/test_a.py` since the mapping uses only the
source file's stem. -/
def c2_source : FsPath → List PyNode
  | ["r", "src", "a.py"] => [.funcDef "f" [] false []]
  | ["r", "src", "sub", "a.py"] => [.funcDef "f" [] false []]
  | _ => []

/-- The two coverage gaps of the C2 bug exhibit. -/
def c2_gaps : List CoverageGapE :=
  [⟨["r", "src", "a.py"], ["f"]⟩, ⟨["r", "src", "sub", "a.py"], ["f"]⟩]

/-- C2 bug exhibit: starting from an empty discovery snapshot and an empty
test tree, the run generates `test_f` twice into the same test file —
the generator never adds the names it has just generated to its
"already generated" set, so the second gap is not skipped, and after
generation `tests/test_a.py` declares `def test_f():` twice. -/
theorem generate_tests_duplicate_test_names_bug :
    ((generate_tests ["r"] c2_source [] c2_gaps ⟨[], []⟩).1.map GeneratedTestE.name =
      ["test_f", "test_f"]) ∧
    ((generate_tests ["r"] c2_source [] c2_gaps ⟨[], []⟩).1.map GeneratedTestE.file_path =
      [["r", "tests", "test_a.py"], ["r", "tests", "test_a.py"]]) ∧
    ((py_splitlines ((fs_read (generate_tests ["r"] c2_source [] c2_gaps ⟨[], []⟩).2
        ["r", "tests", "test_a.py"]).getD "")).count "def test_f():" = 2) :=
  ⟨by decide, by decide, by decide⟩
